import Mathlib

/-!
Verification of `services/surfaceflinger/Scheduler/RefreshRateConfigs.h`
(android::scheduler::RefreshRateConfigs).

Shallow embedding conventions:
* `HwcConfigIndexType` and `HwcConfigGroupType` (strongly typed integer
  wrappers) are embedded as `Nat`.
* `nsecs_t` (int64) is embedded as `Int`.
* `float` fps values are embedded as `Rat` (exact real-valued semantics of
  the comparisons written in the source).
* The `unordered_map<HwcConfigIndexType, const RefreshRate>` catalog is
  embedded as a `List RefreshRate` looked up by the `configId` field, since
  the map is keyed by each entry's own `configId`.
* The header declares `setPolicy`, the candidate-list recomputation,
  construction and the two content-selection entry points without bodies;
  those operations are modelled from the specification (each such
  definition's doc comment says so).
-/

namespace AndroidScheduler

/-- Embeds `RefreshRateConfigs::RefreshRate`: configId (`HwcConfigIndexType`),
vsyncPeriod (`nsecs_t`), configGroup (`HwcConfigGroupType`), human readable
name, and fps (`float`, embedded as `Rat`). -/
structure RefreshRate where
  configId : Nat
  vsyncPeriod : Int
  configGroup : Nat
  name : String
  fps : Rat
deriving DecidableEq

/-- Embeds `RefreshRate::FPS_EPSILON = 0.001f`: the tolerance within which
fps values are considered approximately equal. -/
def RefreshRate.FPS_EPSILON : Rat := 1 / 1000

/-- Embeds `RefreshRate::inPolicy`:
`fps >= (minRefreshRate - FPS_EPSILON) && fps <= (maxRefreshRate + FPS_EPSILON)`. -/
def RefreshRate.inPolicy (r : RefreshRate) (minRefreshRate maxRefreshRate : Rat) : Bool :=
  decide (r.fps ≥ minRefreshRate - RefreshRate.FPS_EPSILON) &&
    decide (r.fps ≤ maxRefreshRate + RefreshRate.FPS_EPSILON)

/-- Embeds `RefreshRate::operator!=`:
`configId != other.configId || vsyncPeriod != other.vsyncPeriod || configGroup != other.configGroup`. -/
def RefreshRate.ne (a b : RefreshRate) : Bool :=
  decide (a.configId ≠ b.configId) || decide (a.vsyncPeriod ≠ b.vsyncPeriod) ||
    decide (a.configGroup ≠ b.configGroup)

/-- Embeds `RefreshRate::operator==`: `!(*this != other)`. -/
def RefreshRate.eq (a b : RefreshRate) : Bool :=
  ! RefreshRate.ne a b

/-- Embeds `RefreshRateConfigs::LayerVoteType`. -/
inductive LayerVoteType where
  | NoVote
  | Min
  | Max
  | Heuristic
  | Explicit
deriving DecidableEq

/-- Embeds `RefreshRateConfigs::LayerRequirement`: layer name (debug), vote
type, desired refresh rate, and weight. -/
structure LayerRequirement where
  name : String
  vote : LayerVoteType
  desiredRefreshRate : Rat
  weight : Rat
deriving DecidableEq

/-- Embeds `LayerRequirement::operator==`:
`name == other.name && vote == other.vote && desiredRefreshRate == other.desiredRefreshRate && weight == other.weight`. -/
def LayerRequirement.eq (a b : LayerRequirement) : Bool :=
  decide (a.name = b.name) && decide (a.vote = b.vote) &&
    decide (a.desiredRefreshRate = b.desiredRefreshRate) && decide (a.weight = b.weight)

/-- Embeds `LayerRequirement::operator!=`: `!(*this == other)`. -/
def LayerRequirement.ne (a b : LayerRequirement) : Bool :=
  ! LayerRequirement.eq a b

/-- Embeds the mutable state of a `RefreshRateConfigs` object: the immutable
catalog `mRefreshRates`, the policy-filtered sorted list
`mAvailableRefreshRates`, the current config id (`mCurrentRefreshRate`
pointer, embedded as its config id), and the policy triple `mDefaultConfig`,
`mMinRefreshRateFps`, `mMaxRefreshRateFps`. -/
structure RefreshRateConfigsState where
  mRefreshRates : List RefreshRate
  mAvailableRefreshRates : List RefreshRate
  mCurrentRefreshRate : Nat
  mDefaultConfig : Nat
  mMinRefreshRateFps : Rat
  mMaxRefreshRateFps : Rat
deriving DecidableEq

/-- Lookup in the catalog by config id: embeds access to the
`unordered_map` keyed by `configId`. -/
def findConfigById (catalog : List RefreshRate) (configId : Nat) : Option RefreshRate :=
  catalog.find? (fun r => r.configId == configId)

/-- The failure mode of `unordered_map::at` on an absent key
(`std::out_of_range`), which the specification's error taxonomy calls
NotFound. -/
inductive LookupStatus where
  | notFound
deriving DecidableEq

/-- Embeds `RefreshRateConfigs::getRefreshRateFromConfigId`:
`return mRefreshRates.at(configId);` — a const lookup that yields the entry
when the key is present and fails (NotFound) when it is absent. -/
def getRefreshRateFromConfigId (s : RefreshRateConfigsState) (configId : Nat) :
    Except LookupStatus RefreshRate :=
  match findConfigById s.mRefreshRates configId with
  | some r => Except.ok r
  | none => Except.error LookupStatus.notFound

/-- Embeds `RefreshRateConfigs::getPolicy`: snapshot of
(defaultConfigId, minRefreshRate, maxRefreshRate). -/
def getPolicy (s : RefreshRateConfigsState) : Nat × Rat × Rat :=
  (s.mDefaultConfig, s.mMinRefreshRateFps, s.mMaxRefreshRateFps)

/-- Candidate ordering: ascending by fps, ties broken by configId
(the determinism tie-break of the candidate list). -/
def candLe (a b : RefreshRate) : Prop :=
  a.fps < b.fps ∨ (a.fps = b.fps ∧ a.configId ≤ b.configId)

instance : DecidableRel candLe := fun a b => by
  unfold candLe
  infer_instance

instance : IsTotal RefreshRate candLe where
  total a b := by
    rcases lt_trichotomy a.fps b.fps with h | h | h
    · exact Or.inl (Or.inl h)
    · rcases Nat.le_total a.configId b.configId with hc | hc
      · exact Or.inl (Or.inr ⟨h, hc⟩)
      · exact Or.inr (Or.inr ⟨h.symm, hc⟩)
    · exact Or.inr (Or.inl h)

instance : IsTrans RefreshRate candLe where
  trans a b c hab hbc := by
    rcases hab with h1 | ⟨h1, h1c⟩
    · rcases hbc with h2 | ⟨h2, _⟩
      · exact Or.inl (h1.trans h2)
      · exact Or.inl (h2 ▸ h1)
    · rcases hbc with h2 | ⟨h2, h2c⟩
      · exact Or.inl (h1 ▸ h2)
      · exact Or.inr ⟨h1.trans h2, h1c.trans h2c⟩

/-- The result of `setPolicy`: `NO_ERROR` together with the `policyChanged`
out-parameter, or the InvalidArgument error (`BAD_VALUE`). -/
inductive SetPolicyResult where
  | ok (policyChanged : Bool)
  | invalidArgument
deriving DecidableEq

/-- Modelled from the spec: `RefreshRateConfigs::constructAvailableRefreshRates`
(declared in the header, body not in the sources) — filter the full catalog by
`inPolicy`, sort ascending by fps with ties broken by configId, store as the
current candidate list. -/
def constructAvailableRefreshRates (catalog : List RefreshRate) (minFps maxFps : Rat) :
    List RefreshRate :=
  List.insertionSort candLe (catalog.filter (fun r => r.inPolicy minFps maxFps))

/-- Modelled from the spec: `RefreshRateConfigs::setPolicy` (declared in the
header, body not in the sources) — validates that `defaultConfigId` exists in
the catalog, that `minRefreshRate ≤ maxRefreshRate`, and that the window does
not exclude the chosen default; on failure returns InvalidArgument and leaves
the state untouched; on success replaces default/min/max, recomputes the
filtered candidate list, and reports whether any of the three fields differs
from the prior value (fps comparisons use the ±0.001 tolerance). -/
def setPolicy (s : RefreshRateConfigsState) (defaultConfigId : Nat)
    (minRefreshRate maxRefreshRate : Rat) : SetPolicyResult × RefreshRateConfigsState :=
  match findConfigById s.mRefreshRates defaultConfigId with
  | none => (SetPolicyResult.invalidArgument, s)
  | some rd =>
    if minRefreshRate > maxRefreshRate then (SetPolicyResult.invalidArgument, s)
    else if ! rd.inPolicy minRefreshRate maxRefreshRate then
      (SetPolicyResult.invalidArgument, s)
    else
      let changed := decide (defaultConfigId ≠ s.mDefaultConfig) ||
        decide (abs (minRefreshRate - s.mMinRefreshRateFps) > RefreshRate.FPS_EPSILON) ||
        decide (abs (maxRefreshRate - s.mMaxRefreshRateFps) > RefreshRate.FPS_EPSILON)
      (SetPolicyResult.ok changed,
        { s with
          mDefaultConfig := defaultConfigId,
          mMinRefreshRateFps := minRefreshRate,
          mMaxRefreshRateFps := maxRefreshRate,
          mAvailableRefreshRates :=
            constructAvailableRefreshRates s.mRefreshRates minRefreshRate maxRefreshRate })

/-- Modelled from the spec: the closeness kernel of the selector's scoring
(§4.3 step 4, body not in the sources) — peaks at 1 for an exact fps match,
gives partial credit when one rate is an integer multiple of the other, and
is 0 otherwise. The exact decay shape is underspecified; any deterministic
choice satisfies the claims under verification. -/
def closeness (candidateFps desiredFps : Rat) : Rat :=
  if candidateFps = desiredFps then 1
  else if candidateFps ≠ 0 ∧ desiredFps ≠ 0 ∧
      ((candidateFps / desiredFps).den = 1 ∨ (desiredFps / candidateFps).den = 1) then 1 / 2
  else 0

/-- Modelled from the spec: aggregate weighted score of a candidate over the
Explicit/Heuristic votes (§4.3 step 4). -/
def layerScore (layers : List LayerRequirement) (c : RefreshRate) : Rat :=
  layers.foldl
    (fun acc l =>
      match l.vote with
      | LayerVoteType.Explicit => acc + l.weight * closeness c.fps l.desiredRefreshRate
      | LayerVoteType.Heuristic => acc + l.weight * closeness c.fps l.desiredRefreshRate
      | _ => acc)
    0

/-- Modelled from the spec: the deterministic tie-break of §4.3 step 5 —
prefer the higher score, then the lower fps, then the lower configId. -/
def betterScored (sa : Rat) (a : RefreshRate) (sb : Rat) (b : RefreshRate) : Bool :=
  decide (sa > sb) ||
    (decide (sa = sb) &&
      (decide (a.fps < b.fps) || (decide (a.fps = b.fps) && decide (a.configId < b.configId))))

/-- Modelled from the spec: the argmax of a scoring function over the
candidate list, resolved with the `betterScored` tie-break. -/
def bestScoredBy (score : RefreshRate → Rat) : List RefreshRate → Option (RefreshRate × Rat)
  | [] => none
  | c :: cs =>
    let sc := score c
    match bestScoredBy score cs with
    | none => some (c, sc)
    | some (b, sb) => if betterScored sc c sb b then some (c, sc) else some (b, sb)

/-- Modelled from the spec: the highest-fps candidate (§4.3 step 2). -/
def maxByFps : List RefreshRate → Option RefreshRate
  | [] => none
  | c :: cs =>
    match maxByFps cs with
    | none => some c
    | some m => some (if c.fps < m.fps then m else c)

/-- Modelled from the spec: the lowest-fps candidate (§4.3 step 3). -/
def minByFps : List RefreshRate → Option RefreshRate
  | [] => none
  | c :: cs =>
    match minByFps cs with
    | none => some c
    | some m => some (if m.fps < c.fps then m else c)

/-- Modelled from the spec: the aggregate weight of the `Min` votes, used as
the bias threshold of §4.3 step 3. -/
def minVoteWeight (layers : List LayerRequirement) : Rat :=
  layers.foldl
    (fun acc l =>
      match l.vote with
      | LayerVoteType.Min => acc + l.weight
      | _ => acc)
    0

/-- Modelled from the spec: the Selector decision procedure (§4.3, body of
`getRefreshRateForContent` not in the sources).
1. empty votes, or all `NoVote`, return the default rate;
2. any `Max` vote, return the highest-fps candidate;
3. any `Min` vote whose bias is not beaten by the weighted score, return the
   lowest-fps candidate;
4./5. otherwise the best-scoring candidate under the deterministic
   tie-break. -/
def selectRefreshRate (candidates : List RefreshRate) (defaultRate : RefreshRate)
    (layers : List LayerRequirement) : RefreshRate :=
  if layers.all (fun l => l.vote == LayerVoteType.NoVote) then defaultRate
  else if layers.any (fun l => l.vote == LayerVoteType.Max) then
    (maxByFps candidates).getD defaultRate
  else
    match bestScoredBy (layerScore layers) candidates with
    | none => defaultRate
    | some (b, sb) =>
      if layers.any (fun l => l.vote == LayerVoteType.Min) && decide (sb ≤ minVoteWeight layers)
      then (minByFps candidates).getD defaultRate
      else b

/-- Modelled from the spec: cross-`configGroup` switch penalty of the refined
variant — a candidate outside the default configuration's group scores lower
by a fixed seam cost. -/
def layerScoreV2 (defaultGroup : Nat) (layers : List LayerRequirement) (c : RefreshRate) : Rat :=
  layerScore layers c - (if c.configGroup = defaultGroup then 0 else 1 / 10)

/-- Modelled from the spec: the refined Selector variant (body of
`getRefreshRateForContentV2` not in the sources) — identical external
contract to `selectRefreshRate`, but weighs cross-`configGroup` switches as
costlier in the scoring step. -/
def selectRefreshRateV2 (candidates : List RefreshRate) (defaultRate : RefreshRate)
    (layers : List LayerRequirement) : RefreshRate :=
  if layers.all (fun l => l.vote == LayerVoteType.NoVote) then defaultRate
  else if layers.any (fun l => l.vote == LayerVoteType.Max) then
    (maxByFps candidates).getD defaultRate
  else
    match bestScoredBy (layerScoreV2 defaultRate.configGroup layers) candidates with
    | none => defaultRate
    | some (b, sb) =>
      if layers.any (fun l => l.vote == LayerVoteType.Min) && decide (sb ≤ minVoteWeight layers)
      then (minByFps candidates).getD defaultRate
      else b

/-- Modelled from the spec: `RefreshRateConfigs::getRefreshRateForContent` —
resolves the policy default against the catalog and runs the Selector over
the current candidate list and the given votes; consults no other state. -/
def getRefreshRateForContent (s : RefreshRateConfigsState) (layers : List LayerRequirement) :
    Option RefreshRate :=
  match findConfigById s.mRefreshRates s.mDefaultConfig with
  | none => none
  | some defaultRate => some (selectRefreshRate s.mAvailableRefreshRates defaultRate layers)

/-- Modelled from the spec: `RefreshRateConfigs::getRefreshRateForContentV2`
— the refined variant with the identical external contract. -/
def getRefreshRateForContentV2 (s : RefreshRateConfigsState) (layers : List LayerRequirement) :
    Option RefreshRate :=
  match findConfigById s.mRefreshRates s.mDefaultConfig with
  | none => none
  | some defaultRate => some (selectRefreshRateV2 s.mAvailableRefreshRates defaultRate layers)

/-- Embeds `RefreshRateConfigs::InputConfig`: one construction record
{configId, configGroup, vsyncPeriod}. -/
structure InputConfig where
  configId : Nat
  configGroup : Nat
  vsyncPeriod : Int
deriving DecidableEq

/-- The construction-time failure of §7: a zero vsync period in the input
config list. -/
inductive ConstructionStatus where
  | constructionInvariantViolation
deriving DecidableEq

/-- Modelled from the spec: catalog construction (`RefreshRateConfigs::init`,
body not in the sources) — for each record the fps is derived as
1e9 / vsyncPeriod; a record with `vsyncPeriod == 0` is rejected fail-fast as
a construction-time invariant violation, so no catalog entry ever divides by
zero. -/
def buildCatalog : List InputConfig → Except ConstructionStatus (List RefreshRate)
  | [] => Except.ok []
  | c :: cs =>
    if c.vsyncPeriod = 0 then Except.error ConstructionStatus.constructionInvariantViolation
    else
      match buildCatalog cs with
      | Except.error e => Except.error e
      | Except.ok rest =>
        Except.ok
          ({ configId := c.configId, vsyncPeriod := c.vsyncPeriod,
             configGroup := c.configGroup, name := "",
             fps := 1000000000 / (c.vsyncPeriod : Rat) } :: rest)

/-! Concrete fixtures used to witness the theorems below: a three-entry
catalog with two configs in group 0 (60 and 90 fps) and one in group 1
(30 fps). -/

/-- Fixture: a 60 fps config, id 0, group 0. -/
def cfg60 : RefreshRate := ⟨0, 16666666, 0, "60fps", 60⟩

/-- Fixture: a 90 fps config, id 1, group 0. -/
def cfg90 : RefreshRate := ⟨1, 11111111, 0, "90fps", 90⟩

/-- Fixture: a 30 fps config, id 2, group 1. -/
def cfg30 : RefreshRate := ⟨2, 33333333, 1, "30fps", 30⟩

/-- Fixture: the initial state over the three-entry catalog, before any
policy narrowing (window [0, 1000]). -/
def st0 : RefreshRateConfigsState := ⟨[cfg60, cfg90, cfg30], [], 0, 0, 0, 1000⟩

/-- Fixture: the state reached from `st0` by `setPolicy 0 30 90`. -/
def st1 : RefreshRateConfigsState :=
  ⟨[cfg60, cfg90, cfg30], [cfg30, cfg60, cfg90], 0, 0, 30, 90⟩

/-- Fixture: a state agreeing with `st1` on the catalog, the candidate list
and the default config, but with a different current config and a different
fps window. -/
def st2 : RefreshRateConfigsState :=
  ⟨[cfg60, cfg90, cfg30], [cfg30, cfg60, cfg90], 2, 0, 0, 1000⟩

end AndroidScheduler

namespace AndroidScheduler

/-- Evaluation of the fixture policy update: `setPolicy st0 0 30 90`
succeeds, reports a change, and produces `st1` with the sorted candidate
list [30, 60, 90]. -/
theorem setPolicy_st0_eval : setPolicy st0 0 30 90 = (SetPolicyResult.ok true, st1) := by
  norm_num [setPolicy, findConfigById, st0, st1, cfg60, cfg90, cfg30, RefreshRate.inPolicy,
    RefreshRate.FPS_EPSILON, constructAvailableRefreshRates, candLe, List.insertionSort,
    List.orderedInsert, abs]

/-- Claim C5: `inPolicy(min, max)` holds exactly when
`min − 0.001 ≤ fps ∧ fps ≤ max + 0.001`; a candidate at `fps = min − 0.0005`
is in-policy (for a well-formed window), and one at `fps = min − 0.002` is
not. -/
theorem inPolicy_epsilon_tolerance (r : RefreshRate) (minR maxR : Rat) (h : minR ≤ maxR) :
    (r.inPolicy minR maxR = true ↔ (minR - 1/1000 ≤ r.fps ∧ r.fps ≤ maxR + 1/1000)) ∧
    (∀ c : RefreshRate, c.fps = minR - 5/10000 → c.inPolicy minR maxR = true) ∧
    (∀ c : RefreshRate, c.fps = minR - 2/1000 → c.inPolicy minR maxR = false) := by
  refine ⟨?_, ?_, ?_⟩
  · simp [RefreshRate.inPolicy, RefreshRate.FPS_EPSILON, ge_iff_le]
  · intro c hc
    simp only [RefreshRate.inPolicy, RefreshRate.FPS_EPSILON, Bool.and_eq_true,
      decide_eq_true_eq, hc, ge_iff_le]
    constructor
    · linarith
    · linarith
  · intro c hc
    rw [Bool.eq_false_iff]
    intro hT
    rw [RefreshRate.inPolicy, Bool.and_eq_true, decide_eq_true_eq, decide_eq_true_eq,
      RefreshRate.FPS_EPSILON, hc] at hT
    linarith [hT.1]

/-- Witness for C5 at the 60 fps config and the window [30, 90]. -/
theorem inPolicy_epsilon_tolerance_witness :
    (30 : Rat) ≤ 90 ∧
    ((cfg60.inPolicy 30 90 = true ↔ ((30:Rat) - 1/1000 ≤ cfg60.fps ∧ cfg60.fps ≤ 90 + 1/1000)) ∧
     (∀ c : RefreshRate, c.fps = 30 - 5/10000 → c.inPolicy 30 90 = true) ∧
     (∀ c : RefreshRate, c.fps = 30 - 2/1000 → c.inPolicy 30 90 = false)) :=
  ⟨by decide, inPolicy_epsilon_tolerance cfg60 30 90 (by decide)⟩

/-- Claim C6: `RefreshRate` equality is structural over
(configId, vsyncPeriod, configGroup) only; name and fps never affect it, and
differing configIds compare unequal even with identical fps. -/
theorem refreshRate_eq_structural (a b : RefreshRate) :
    (RefreshRate.eq a b = true ↔
      (a.configId = b.configId ∧ a.vsyncPeriod = b.vsyncPeriod ∧
        a.configGroup = b.configGroup)) ∧
    (∀ n1 n2 : String, ∀ f1 f2 : Rat,
      RefreshRate.eq { a with name := n1, fps := f1 } { a with name := n2, fps := f2 } = true) ∧
    (a.configId ≠ b.configId → a.fps = b.fps → RefreshRate.eq a b = false) := by
  refine ⟨?_, ?_, ?_⟩
  · simp [RefreshRate.eq, RefreshRate.ne, not_or, and_assoc]
  · intro n1 n2 f1 f2
    simp [RefreshRate.eq, RefreshRate.ne]
  · intro hid _
    simp [RefreshRate.eq, RefreshRate.ne, hid]

/-- Witness for C6: cfg60 against a copy with another configId but the same
fps compares unequal. -/
theorem refreshRate_eq_structural_witness :
    cfg60.configId ≠ (⟨7, 16666666, 0, "other", 60⟩ : RefreshRate).configId ∧
    cfg60.fps = (⟨7, 16666666, 0, "other", 60⟩ : RefreshRate).fps ∧
    RefreshRate.eq cfg60 ⟨7, 16666666, 0, "other", 60⟩ = false :=
  ⟨by decide, by decide,
    (refreshRate_eq_structural cfg60 ⟨7, 16666666, 0, "other", 60⟩).2.2 (by decide) (by decide)⟩

/-- Claim C10: `LayerRequirement` equality compares all four fields, the
debug-only name included, so two votes differing only in name compare
unequal. -/
theorem layerRequirement_eq_all_fields (a b : LayerRequirement) :
    (LayerRequirement.eq a b = true ↔
      (a.name = b.name ∧ a.vote = b.vote ∧ a.desiredRefreshRate = b.desiredRefreshRate ∧
        a.weight = b.weight)) ∧
    (∀ n1 n2 : String, n1 ≠ n2 →
      LayerRequirement.eq { a with name := n1 } { a with name := n2 } = false) := by
  constructor
  · simp [LayerRequirement.eq, and_assoc]
  · intro n1 n2 hn
    simp [LayerRequirement.eq, hn]

/-- Witness for C10: two votes identical except for the name compare
unequal. -/
theorem layerRequirement_eq_all_fields_witness :
    ("a" : String) ≠ "b" ∧
    LayerRequirement.eq ⟨"a", LayerVoteType.Max, 0, 1⟩ ⟨"b", LayerVoteType.Max, 0, 1⟩ = false :=
  ⟨by decide,
    (layerRequirement_eq_all_fields ⟨"a", LayerVoteType.Max, 0, 1⟩
      ⟨"b", LayerVoteType.Max, 0, 1⟩).2 "a" "b" (by decide)⟩

/-- Claim C7: `getRefreshRateFromConfigId` returns the catalog entry keyed
by the given id when present (the lookup is a pure const read of the
catalog) and fails with NotFound when the id is absent. -/
theorem getRefreshRateFromConfigId_lookup (s : RefreshRateConfigsState) (configId : Nat) :
    (∀ r, findConfigById s.mRefreshRates configId = some r →
      getRefreshRateFromConfigId s configId = Except.ok r ∧ r.configId = configId) ∧
    (findConfigById s.mRefreshRates configId = none →
      getRefreshRateFromConfigId s configId = Except.error LookupStatus.notFound) := by
  constructor
  · intro r hr
    refine ⟨by simp [getRefreshRateFromConfigId, hr], ?_⟩
    have hp := List.find?_some
      (show List.find? (fun x => x.configId == configId) s.mRefreshRates = some r from hr)
    simpa using hp
  · intro hn
    simp [getRefreshRateFromConfigId, hn]

/-- Witness for C7: in the fixture catalog, id 1 resolves to cfg90 and the
absent id 99 fails with NotFound. -/
theorem getRefreshRateFromConfigId_lookup_witness :
    (getRefreshRateFromConfigId st0 1 = Except.ok cfg90 ∧ cfg90.configId = 1) ∧
    getRefreshRateFromConfigId st0 99 = Except.error LookupStatus.notFound :=
  ⟨(getRefreshRateFromConfigId_lookup st0 1).1 cfg90 (by decide),
    (getRefreshRateFromConfigId_lookup st0 99).2 (by decide)⟩

/-- Claim C1: `setPolicy` with an unknown default config id, or with
min > max, returns InvalidArgument and leaves the whole state — hence the
policy observable via `getPolicy` — exactly as it was. -/
theorem setPolicy_invalid_leaves_state (s : RefreshRateConfigsState) (d : Nat)
    (minR maxR : Rat) (h : findConfigById s.mRefreshRates d = none ∨ minR > maxR) :
    (setPolicy s d minR maxR).1 = SetPolicyResult.invalidArgument ∧
    (setPolicy s d minR maxR).2 = s ∧
    getPolicy (setPolicy s d minR maxR).2 = getPolicy s := by
  rcases h with h | h
  · simp [setPolicy, h]
  · rcases hf : findConfigById s.mRefreshRates d with _ | rd
    · simp [setPolicy, hf]
    · simp [setPolicy, hf, h]

/-- Witness for C1: updating `st0` with the absent default id 99 errors and
leaves the state unchanged. -/
theorem setPolicy_invalid_leaves_state_witness :
    (findConfigById st0.mRefreshRates 99 = none ∨ (30 : Rat) > 90) ∧
    ((setPolicy st0 99 30 90).1 = SetPolicyResult.invalidArgument ∧
     (setPolicy st0 99 30 90).2 = st0 ∧
     getPolicy (setPolicy st0 99 30 90).2 = getPolicy st0) :=
  ⟨Or.inl (by decide), setPolicy_invalid_leaves_state st0 99 30 90 (Or.inl (by decide))⟩

/-- Claim C2: after every successful `setPolicy(d, min, max)`, the stored
candidate list is the full catalog filtered by `inPolicy(min, max)` (stated
as a permutation of the filter together with the membership
characterization), sorted ascending by fps with ties broken by configId,
non-empty, and contains the config with id `d`. -/
theorem setPolicy_success_candidate_invariant (s : RefreshRateConfigsState) (d : Nat)
    (minR maxR : Rat)
    (h : (setPolicy s d minR maxR).1 ≠ SetPolicyResult.invalidArgument) :
    List.Sorted candLe (setPolicy s d minR maxR).2.mAvailableRefreshRates ∧
    List.Perm (setPolicy s d minR maxR).2.mAvailableRefreshRates
      (s.mRefreshRates.filter (fun r => r.inPolicy minR maxR)) ∧
    (∀ r, r ∈ (setPolicy s d minR maxR).2.mAvailableRefreshRates ↔
      (r ∈ s.mRefreshRates ∧ r.inPolicy minR maxR = true)) ∧
    (setPolicy s d minR maxR).2.mAvailableRefreshRates ≠ [] ∧
    (∃ r ∈ (setPolicy s d minR maxR).2.mAvailableRefreshRates, r.configId = d) := by
  rcases hf : findConfigById s.mRefreshRates d with _ | rd
  · exact absurd (by simp [setPolicy, hf]) h
  · by_cases h1 : minR > maxR
    · exact absurd (by simp [setPolicy, hf, h1]) h
    · by_cases h2 : rd.inPolicy minR maxR = true
      · have hs2 : (setPolicy s d minR maxR).2.mAvailableRefreshRates =
            List.insertionSort candLe
              (s.mRefreshRates.filter (fun r => r.inPolicy minR maxR)) := by
          simp [setPolicy, hf, h1, h2, constructAvailableRefreshRates]
        have hrdmem : rd ∈ s.mRefreshRates :=
          List.mem_of_find?_eq_some
            (show List.find? (fun x => x.configId == d) s.mRefreshRates = some rd from hf)
        have hrdid : rd.configId = d := by
          have hp := List.find?_some
            (show List.find? (fun x => x.configId == d) s.mRefreshRates = some rd from hf)
          simpa using hp
        have hrdavail : rd ∈ (setPolicy s d minR maxR).2.mAvailableRefreshRates := by
          rw [hs2, List.mem_insertionSort, List.mem_filter]
          exact ⟨hrdmem, h2⟩
        refine ⟨?_, ?_, ?_, ?_, ?_⟩
        · rw [hs2]
          exact List.sorted_insertionSort candLe _
        · rw [hs2]
          exact List.perm_insertionSort candLe _
        · intro r
          rw [hs2, List.mem_insertionSort, List.mem_filter]
        · exact List.ne_nil_of_mem hrdavail
        · exact ⟨rd, hrdavail, hrdid⟩
      · have h2f : rd.inPolicy minR maxR = false := by
          rwa [Bool.not_eq_true] at h2
        exact absurd (by simp [setPolicy, hf, h1, h2f]) h

/-- Witness for C2 at the fixture update `setPolicy st0 0 30 90`, whose
candidate list is [cfg30, cfg60, cfg90]. -/
theorem setPolicy_success_candidate_invariant_witness :
    (setPolicy st0 0 30 90).1 ≠ SetPolicyResult.invalidArgument ∧
    (List.Sorted candLe (setPolicy st0 0 30 90).2.mAvailableRefreshRates ∧
     List.Perm (setPolicy st0 0 30 90).2.mAvailableRefreshRates
       (st0.mRefreshRates.filter (fun r => r.inPolicy 30 90)) ∧
     (∀ r, r ∈ (setPolicy st0 0 30 90).2.mAvailableRefreshRates ↔
       (r ∈ st0.mRefreshRates ∧ r.inPolicy 30 90 = true)) ∧
     (setPolicy st0 0 30 90).2.mAvailableRefreshRates ≠ [] ∧
     (∃ r ∈ (setPolicy st0 0 30 90).2.mAvailableRefreshRates, r.configId = 0)) :=
  ⟨by simp [setPolicy_st0_eval], setPolicy_success_candidate_invariant st0 0 30 90
    (by simp [setPolicy_st0_eval])⟩

/-- `maxByFps` never returns `none` on a non-empty list. -/
theorem maxByFps_isSome (l : List RefreshRate) (h : l ≠ []) : ∃ m, maxByFps l = some m := by
  cases l with
  | nil => exact absurd rfl h
  | cons c cs =>
    rw [maxByFps]
    rcases hm : maxByFps cs with _ | m
    · exact ⟨c, rfl⟩
    · exact ⟨if c.fps < m.fps then m else c, rfl⟩

/-- The element returned by `maxByFps` belongs to the list and has the
maximal fps. -/
theorem maxByFps_spec (l : List RefreshRate) (m : RefreshRate) (h : maxByFps l = some m) :
    m ∈ l ∧ ∀ c ∈ l, c.fps ≤ m.fps := by
  induction l generalizing m with
  | nil => cases h
  | cons a as ih =>
    rw [maxByFps] at h
    rcases hm : maxByFps as with _ | m' <;> rw [hm] at h
    · have h' : a = m := by simpa using h
      subst h'
      have hnil : as = [] := by
        cases as with
        | nil => rfl
        | cons b bs =>
          rw [maxByFps] at hm
          rcases h2 : maxByFps bs with _ | x <;> rw [h2] at hm <;> simp at hm
      subst hnil
      refine ⟨List.mem_singleton.mpr rfl, ?_⟩
      intro c hc
      rw [List.mem_singleton.mp hc]
    · have h' : (if a.fps < m'.fps then m' else a) = m := by simpa using h
      rcases ih m' hm with ⟨hmem, hbound⟩
      by_cases hlt : a.fps < m'.fps
      · rw [if_pos hlt] at h'
        subst h'
        refine ⟨List.mem_cons_of_mem a hmem, ?_⟩
        intro c hc
        rcases List.mem_cons.mp hc with rfl | hcs
        · exact le_of_lt hlt
        · exact hbound c hcs
      · rw [if_neg hlt] at h'
        subst h'
        refine ⟨List.mem_cons_self a as, ?_⟩
        intro c hc
        rcases List.mem_cons.mp hc with rfl | hcs
        · exact le_refl _
        · exact le_trans (hbound c hcs) (le_of_not_lt hlt)

/-- Claim C3: when the vote list is empty or consists only of `NoVote`
votes, the per-frame selection returns the policy's default refresh rate. -/
theorem content_all_noVote_returns_default (s : RefreshRateConfigsState)
    (layers : List LayerRequirement) (rd : RefreshRate)
    (hd : findConfigById s.mRefreshRates s.mDefaultConfig = some rd)
    (hv : layers.all (fun l => l.vote == LayerVoteType.NoVote) = true) :
    getRefreshRateForContent s layers = some rd := by
  simp [getRefreshRateForContent, hd, selectRefreshRate, hv]

/-- Witness for C3: in the fixture state `st1` with no votes, the default
(cfg60) is selected. -/
theorem content_all_noVote_returns_default_witness :
    findConfigById st1.mRefreshRates st1.mDefaultConfig = some cfg60 ∧
    (List.all ([] : List LayerRequirement) (fun l => l.vote == LayerVoteType.NoVote) = true) ∧
    getRefreshRateForContent st1 [] = some cfg60 :=
  ⟨rfl, rfl, content_all_noVote_returns_default st1 [] cfg60 rfl rfl⟩

/-- Claim C4: with a non-empty candidate list and at least one `Max` vote,
the per-frame selection returns the candidate with the highest fps. -/
theorem content_max_vote_returns_highest (s : RefreshRateConfigsState)
    (layers : List LayerRequirement) (rd : RefreshRate)
    (hd : findConfigById s.mRefreshRates s.mDefaultConfig = some rd)
    (hne : s.mAvailableRefreshRates ≠ [])
    (hmax : layers.any (fun l => l.vote == LayerVoteType.Max) = true) :
    ∃ r, getRefreshRateForContent s layers = some r ∧ r ∈ s.mAvailableRefreshRates ∧
      ∀ c ∈ s.mAvailableRefreshRates, c.fps ≤ r.fps := by
  have hall : layers.all (fun l => l.vote == LayerVoteType.NoVote) = false := by
    rcases List.any_eq_true.mp hmax with ⟨l0, hl0m, hl0⟩
    rw [Bool.eq_false_iff]
    intro hAll
    have hnv := List.all_eq_true.mp hAll l0 hl0m
    rw [beq_iff_eq] at hnv hl0
    rw [hl0] at hnv
    exact absurd hnv (by decide)
  obtain ⟨m, hm⟩ := maxByFps_isSome _ hne
  refine ⟨m, ?_, (maxByFps_spec _ m hm).1, (maxByFps_spec _ m hm).2⟩
  simp [getRefreshRateForContent, hd, selectRefreshRate, hall, hmax, hm]

/-- Witness for C4: in the fixture state `st1` with a single `Max` vote, the
90 fps candidate is selected. -/
theorem content_max_vote_returns_highest_witness :
    findConfigById st1.mRefreshRates st1.mDefaultConfig = some cfg60 ∧
    st1.mAvailableRefreshRates ≠ [] ∧
    List.any [(⟨"l", LayerVoteType.Max, 0, 1⟩ : LayerRequirement)]
      (fun l => l.vote == LayerVoteType.Max) = true ∧
    (∃ r, getRefreshRateForContent st1 [(⟨"l", LayerVoteType.Max, 0, 1⟩ : LayerRequirement)] =
        some r ∧ r ∈ st1.mAvailableRefreshRates ∧
      ∀ c ∈ st1.mAvailableRefreshRates, c.fps ≤ r.fps) :=
  ⟨rfl, by decide, rfl,
    content_max_vote_returns_highest st1 [⟨"l", LayerVoteType.Max, 0, 1⟩] cfg60 rfl
      (by decide) rfl⟩

/-- Claim C9: both per-frame selection entry points are deterministic pure
functions of the catalog, the candidate list, the default config and the
vote list: two states agreeing on those (but differing arbitrarily in the
current config and the fps window) yield identical results on identical
votes. -/
theorem selection_depends_only_on_inputs (a b : RefreshRateConfigsState)
    (layers : List LayerRequirement)
    (hcat : a.mRefreshRates = b.mRefreshRates)
    (havail : a.mAvailableRefreshRates = b.mAvailableRefreshRates)
    (hdef : a.mDefaultConfig = b.mDefaultConfig) :
    getRefreshRateForContent a layers = getRefreshRateForContent b layers ∧
    getRefreshRateForContentV2 a layers = getRefreshRateForContentV2 b layers := by
  constructor
  · simp [getRefreshRateForContent, hcat, havail, hdef]
  · simp [getRefreshRateForContentV2, hcat, havail, hdef]

/-- Witness for C9: `st1` and a copy with a different current config and a
different fps window select identically. -/
theorem selection_depends_only_on_inputs_witness :
    st1.mRefreshRates = st2.mRefreshRates ∧
    st1.mAvailableRefreshRates = st2.mAvailableRefreshRates ∧
    st1.mDefaultConfig = st2.mDefaultConfig ∧
    (getRefreshRateForContent st1 [] = getRefreshRateForContent st2 [] ∧
      getRefreshRateForContentV2 st1 [] = getRefreshRateForContentV2 st2 []) :=
  ⟨rfl, rfl, rfl, selection_depends_only_on_inputs st1 st2 [] rfl rfl rfl⟩

/-- Evaluation of the fixture construction: two well-formed records build
the expected catalog with exact derived fps values. -/
theorem buildCatalog_pair_eval :
    buildCatalog [(⟨0, 0, 20000000⟩ : InputConfig), ⟨1, 0, 10000000⟩] =
      Except.ok [⟨0, 20000000, 0, "", 50⟩, ⟨1, 10000000, 0, "", 100⟩] := by
  norm_num [buildCatalog]

/-- Claim C8: construction rejects any record with a zero vsync period
(fail fast), and on success every catalog entry has a nonzero vsync period
with fps genuinely equal to 1e9 / vsyncPeriod (stated multiplicatively:
fps * vsyncPeriod = 1e9, so the division is never by zero). -/
theorem buildCatalog_zero_vsync_fail_fast (configs : List InputConfig) :
    ((∃ c ∈ configs, c.vsyncPeriod = 0) →
      buildCatalog configs = Except.error ConstructionStatus.constructionInvariantViolation) ∧
    (∀ catalog, buildCatalog configs = Except.ok catalog →
      ∀ r ∈ catalog, r.vsyncPeriod ≠ 0 ∧ r.fps * (r.vsyncPeriod : Rat) = 1000000000) := by
  induction configs with
  | nil =>
    constructor
    · rintro ⟨c, hc, _⟩
      exact absurd hc (List.not_mem_nil c)
    · intro catalog hcat r hr
      rw [buildCatalog] at hcat
      cases hcat
      exact absurd hr (List.not_mem_nil r)
  | cons a as ih =>
    constructor
    · rintro ⟨c, hc, hc0⟩
      rcases List.mem_cons.mp hc with rfl | hcs
      · rw [buildCatalog, if_pos hc0]
      · by_cases ha : a.vsyncPeriod = 0
        · rw [buildCatalog, if_pos ha]
        · rw [buildCatalog, if_neg ha, ih.1 ⟨c, hcs, hc0⟩]
    · intro catalog hcat r hr
      by_cases ha : a.vsyncPeriod = 0
      · rw [buildCatalog, if_pos ha] at hcat
        cases hcat
      · rw [buildCatalog, if_neg ha] at hcat
        rcases hb : buildCatalog as with e | rest
        · rw [hb] at hcat
          cases hcat
        · rw [hb] at hcat
          cases hcat
          rcases List.mem_cons.mp hr with rfl | hrs
          · refine ⟨ha, ?_⟩
            have hz : ((a.vsyncPeriod : Rat)) ≠ 0 := by exact_mod_cast ha
            exact div_mul_cancel₀ _ hz
          · exact ih.2 rest hb r hrs

/-- Witness for C8: a zero-vsync record is rejected, and the two-record
fixture construction yields entries whose fps times vsync period is exactly
1e9. -/
theorem buildCatalog_zero_vsync_fail_fast_witness :
    (∃ c ∈ [(⟨0, 0, 0⟩ : InputConfig)], c.vsyncPeriod = 0) ∧
    buildCatalog [(⟨0, 0, 0⟩ : InputConfig)] =
      Except.error ConstructionStatus.constructionInvariantViolation ∧
    (∀ r ∈ [(⟨0, 20000000, 0, "", 50⟩ : RefreshRate), ⟨1, 10000000, 0, "", 100⟩],
      r.vsyncPeriod ≠ 0 ∧ r.fps * (r.vsyncPeriod : Rat) = 1000000000) :=
  ⟨⟨⟨0, 0, 0⟩, by decide, rfl⟩,
    (buildCatalog_zero_vsync_fail_fast [⟨0, 0, 0⟩]).1 ⟨⟨0, 0, 0⟩, by decide, rfl⟩,
    (buildCatalog_zero_vsync_fail_fast [⟨0, 0, 20000000⟩, ⟨1, 0, 10000000⟩]).2 _
      buildCatalog_pair_eval⟩

end AndroidScheduler
